import Mathlib

/-!
Verification of the lazy streaming pipeline and resilience middleware of the
`alx-backend-python` repository: shallow embeddings of the generator chain
(`python-generators-0x00`) and the decorator middleware
(`python-decorators-0x01`), with theorems settling the spec's claims.
-/

set_option maxHeartbeats 1000000

namespace AlxBackend

/-- Python exception values relevant to the pipeline.  `operationalError`
models `sqlite3.OperationalError` / transient store failures;
`exhaustedRetriesError` models the spec's `ExhaustedRetriesError` class (the
source never constructs it); the remaining constructors model other Python
exception classes that can cross the embedded code's boundaries. -/
inductive PyError where
  | operationalError (msg : String)
  | exhaustedRetriesError (msg : String)
  | validationError (msg : String)
  | valueError (msg : String)
  | typeError (msg : String)
  | dbError (msg : String)
  deriving DecidableEq, Repr

/-- Holds exactly for `sqlite3.OperationalError`, the only exception class
caught by `retry_db_operation`'s `except` clause. -/
def PyError.isOperational : PyError → Bool
  | .operationalError _ => true
  | _ => false

/-- Whether a finished computation raised the spec's `ExhaustedRetriesError`. -/
def raisesExhaustedRetries {α : Type} : Except PyError α → Bool
  | .error (.exhaustedRetriesError _) => true
  | _ => false

/-- A row of the `user_data` table (schema from `seed.py`: `user_id`, `name`,
`email`, `age DECIMAL`); the dictionary cursor yields such records. -/
structure Row where
  user_id : String
  name : String
  email : String
  age : ℚ
  deriving DecidableEq, Repr

/-! ## `python-generators-0x00/2-lazy_paginate.py` -/

/-- `paginate_users(page_size, offset)`: one `SELECT * FROM user_data LIMIT
page_size OFFSET offset` against the fixed dataset in cursor order. -/
def paginate_users (dataset : List Row) (page_size offset : Nat) : List Row :=
  (dataset.drop offset).take page_size

/-- The `while True` loop body of `lazy_pagination`, with explicit fuel: fetch
the page at `offset`; `break` when it is empty; otherwise yield it and advance
`offset` by `page_size`. -/
def lazyPaginationLoop (dataset : List Row) (page_size : Nat) :
    Nat → Nat → List (List Row)
  | _offset, 0 => []
  | offset, fuel + 1 =>
    let page := paginate_users dataset page_size offset
    if page.isEmpty then []
    else page :: lazyPaginationLoop dataset page_size (offset + page_size) fuel

/-- Function `lazy_pagination(page_size)`: the full sequence of yielded pages, starting
at `offset = 0`.  `dataset.length + 1` fuel covers every loop iteration the
Python loop performs when it terminates. -/
def lazy_pagination (dataset : List Row) (page_size : Nat) : List (List Row) :=
  lazyPaginationLoop dataset page_size 0 (dataset.length + 1)

/-! ## `python-generators-0x00/1-batch_processing.py` -/

/-- The `while True` loop of `stream_users_in_batches`, with explicit fuel:
`batch = list(islice(cursor, batch_size))` pulls up to `batch_size` rows from
the open cursor (the list of rows not yet consumed); `break` when the pull is
empty; otherwise yield the batch. -/
def batchLoop (batch_size : Nat) : Nat → List Row → List (List Row)
  | 0, _ => []
  | fuel + 1, rows =>
    let batch := rows.take batch_size
    if batch.isEmpty then []
    else batch :: batchLoop batch_size fuel (rows.drop batch_size)

/-- Function `stream_users_in_batches(batch_size)`: the full sequence of yielded
batches over one open cursor on the fixed dataset. -/
def stream_users_in_batches (dataset : List Row) (batch_size : Nat) :
    List (List Row) :=
  batchLoop batch_size (dataset.length + 1) dataset

/-- Function `batch_processing(batch_size)`: flattens the batches and yields users with
`age > 25` one by one. -/
def batch_processing (dataset : List Row) (batch_size : Nat) : List Row :=
  ((stream_users_in_batches dataset batch_size).flatten).filter
    (fun u => decide (25 < u.age))

/-! ## `python-generators-0x00/0-stream_users.py` as a pull-based machine

`stream_users` opens a connection and cursor, yields rows one by one from the
cursor's `for` loop, and only after that loop finishes runs `cursor.close()`
and `connection.close()`.  The body contains no `try`/`finally`, so when the
consumer abandons the generator (CPython throws `GeneratorExit` at the
suspended `yield`), the frame unwinds without ever reaching the two trailing
close statements. -/

/-- Runtime state of one `stream_users()` generator instance. -/
structure StreamGen where
  connOpen : Bool
  cursorOpen : Bool
  pending : List Row
  frameDone : Bool
  deriving DecidableEq, Repr

/-- Creating the generator and advancing it to its first suspension: the
connection is opened, the cursor created and the query executed. -/
def streamUsersStart (dataset : List Row) : StreamGen :=
  { connOpen := true, cursorOpen := true, pending := dataset, frameDone := false }

/-- One `next()` on the generator: either the `for` loop yields the next
cursor row, or the loop is exhausted and the two trailing close statements
run before the frame returns (`StopIteration`, modelled as `none`). -/
def streamUsersNext (s : StreamGen) : Option Row × StreamGen :=
  if s.frameDone then (none, s)
  else
    match s.pending with
    | r :: rs => (some r, { s with pending := rs })
    | [] =>
      (none, { connOpen := false, cursorOpen := false, pending := [],
               frameDone := true })

/-- Abandoning the generator before exhaustion: `GeneratorExit` is thrown at
the suspended `yield`; the body has no `try`/`finally`, so the frame exits
without executing `cursor.close()` or `connection.close()`. -/
def streamUsersAbandon (s : StreamGen) : StreamGen :=
  { s with frameDone := true }

/-- Performs `k` successive `next()` calls, discarding the yielded rows. -/
def streamUsersRun : Nat → StreamGen → StreamGen
  | 0, s => s
  | k + 1, s => streamUsersRun k (streamUsersNext s).2

/-- Runtime state of one `stream_users_in_batches(batch_size)` generator
instance; same shape as `StreamGen` (one connection and cursor for the whole
traversal, no `try`/`finally` in the body). -/
structure BatchGen where
  connOpen : Bool
  cursorOpen : Bool
  pending : List Row
  frameDone : Bool
  deriving DecidableEq, Repr

/-- Creating `stream_users_in_batches` and advancing to its first suspension. -/
def batchGenStart (dataset : List Row) : BatchGen :=
  { connOpen := true, cursorOpen := true, pending := dataset, frameDone := false }

/-- One `next()` on the batch generator: `islice` pulls up to `batch_size`
rows from the cursor; an empty pull breaks the loop and runs the close
statements, otherwise the batch is yielded. -/
def batchGenNext (batch_size : Nat) (s : BatchGen) :
    Option (List Row) × BatchGen :=
  if s.frameDone then (none, s)
  else
    let batch := s.pending.take batch_size
    if batch.isEmpty then
      (none, { connOpen := false, cursorOpen := false, pending := [],
               frameDone := true })
    else (some batch, { s with pending := s.pending.drop batch_size })

/-- Abandoning the batch generator: as in `streamUsersAbandon`, the trailing
close statements are skipped. -/
def batchGenAbandon (s : BatchGen) : BatchGen :=
  { s with frameDone := true }

/-! ## `python-generators-0x00/4-stream_ages.py` -/

/-- Function `stream_user_ages()`: yields `row['age']` for each row of `SELECT age
FROM user_data`. -/
def stream_user_ages (dataset : List Row) : List ℚ :=
  dataset.map Row.age

/-- Function `compute_average_age()`: a single pass over the age stream maintaining
the running pair `(total, count)`; returns `0` when `count == 0`, else
`total / count`. -/
def compute_average_age (dataset : List Row) : ℚ :=
  let acc := (stream_user_ages dataset).foldl
    (fun (tc : ℚ × Nat) age => (tc.1 + age, tc.2 + 1)) (0, 0)
  if acc.2 = 0 then 0 else acc.1 / (acc.2 : ℚ)

/-! ## `python-decorators-0x01/3-retry_on_failure.py`

`retry_db_operation(retries, delay)` wraps `func`: `for attempt in
range(retries)` it invokes `func`, returning on success; only
`sqlite3.OperationalError` is caught (recorded as `last_exception`, then
`time.sleep(delay)`); any other exception propagates at once.  After the loop
it executes `raise last_exception`.  The wrapped operation is modelled as a
function from the 0-based attempt index to that attempt's outcome; the result
pairs the surfaced outcome with the number of invocations. -/

/-- The `for attempt in range(retries)` loop: `invoked` counts calls made so
far, `last` is `last_exception`, the second `Nat` is the remaining iteration
budget.  `raise None` (the `retries = 0` edge) is Python's `TypeError`. -/
def retryLoop {α : Type} (op : Nat → Except PyError α) :
    Nat → Option PyError → Nat → Except PyError α × Nat
  | invoked, last, 0 =>
    match last with
    | some e => (.error e, invoked)
    | none => (.error (.typeError "exceptions must derive from BaseException"),
               invoked)
  | invoked, _last, n + 1 =>
    match op invoked with
    | .ok v => (.ok v, invoked + 1)
    | .error e =>
      if e.isOperational then retryLoop op (invoked + 1) (some e) n
      else (.error e, invoked + 1)

/-- The wrapper produced by `retry_db_operation(retries, delay)` applied to an
operation: surfaced outcome and total invocation count. -/
def retry_db_operation {α : Type} (retries : Nat)
    (op : Nat → Except PyError α) : Except PyError α × Nat :=
  retryLoop op 0 none retries

/-! ## `python-decorators-0x01/4-cache_query.py`

`cache_query(func)` owns a dict `cache`; the wrapper computes `query =
kwargs.get("query") or (args[0] if args else None)` (Python `or`: an absent,
`None`, or empty-string keyword falls through to the first positional
argument, or to `None` when there are none), returns `cache[query]` on a hit,
and otherwise invokes `func`, stores the result under `query`, and returns
it.  Cache keys are therefore `Option String` (`none` is Python's `None`,
itself a legal dict key); positional arguments are modelled by the strings
the key derivation could pick up. -/

/-- The wrapper's key derivation `kwargs.get("query") or (args[0] if args
else None)`. -/
def cacheKey (kwargsQuery : Option String) (args : List String) :
    Option String :=
  match kwargsQuery with
  | some q => if q = "" then args.head? else some q
  | none => args.head?

/-- One call through the `cache_query` wrapper.  `cache` is the dict's
current contents, `funcResult` the value `func(*args, **kwargs)` would
produce for this call.  Returns the call's result, the dict afterwards, and
whether the underlying `func` was invoked. -/
def cache_query_call {ρ : Type} (cache : List (Option String × ρ))
    (kwargsQuery : Option String) (args : List String) (funcResult : ρ) :
    ρ × List (Option String × ρ) × Bool :=
  let query := cacheKey kwargsQuery args
  match cache.lookup query with
  | some r => (r, cache, false)
  | none => (funcResult, (query, funcResult) :: cache, true)

/-! ## `python-decorators-0x01/2-transactional.py`

`transactional(func)` opens the connection, then `try`: `BEGIN`, invoke
`func`, `commit`; `except Exception`: `rollback`, print, `raise` (re-raising
the caught exception — but an exception raised by `rollback` itself
propagates instead); `finally`: `conn.close()`.  The store's behaviour on
this call is a record of the outcomes of each primitive. -/

/-- Outcomes of the store primitives for one wrapped call. -/
structure TxBehavior (α : Type) where
  beginResult : Except PyError Unit
  opResult : Except PyError α
  commitResult : Except PyError Unit
  rollbackResult : Except PyError Unit

/-- Observable outcome of one call through the `transactional` wrapper. -/
structure TxRun (α : Type) where
  surfaced : Except PyError α
  opInvoked : Bool
  committed : Bool
  rollbackAttempted : Bool
  connClosed : Bool

/-- The `except Exception` block: `conn.rollback()` then `raise e`; if the
rollback itself raises, that new exception propagates out of the handler in
place of `e`.  The `finally` block closes the connection on every path. -/
def txExceptBlock {α : Type} (b : TxBehavior α) (e : PyError)
    (opInvoked : Bool) : TxRun α :=
  match b.rollbackResult with
  | .ok _ =>
    { surfaced := .error e, opInvoked := opInvoked, committed := false,
      rollbackAttempted := true, connClosed := true }
  | .error re =>
    { surfaced := .error re, opInvoked := opInvoked, committed := false,
      rollbackAttempted := true, connClosed := true }

/-- One call through the `transactional` wrapper. -/
def transactional {α : Type} (b : TxBehavior α) : TxRun α :=
  match b.beginResult with
  | .error be => txExceptBlock b be false
  | .ok _ =>
    match b.opResult with
    | .error e => txExceptBlock b e true
    | .ok v =>
      match b.commitResult with
      | .ok _ =>
        { surfaced := .ok v, opInvoked := true, committed := true,
          rollbackAttempted := false, connClosed := true }
      | .error ce => txExceptBlock b ce true

/-! ## Structural lemmas about the two chunking loops -/

/-- The batch loop on an exhausted cursor yields nothing and stops. -/
theorem batchLoop_nil (bs n : Nat) : batchLoop bs (n + 1) [] = [] := by
  simp [batchLoop]

/-- One iteration of the batch loop on a non-empty cursor with a positive
batch size: the pull is non-empty, so it is yielded and the loop continues on
the remaining rows. -/
theorem batchLoop_step (bs : Nat) (hbs : 0 < bs) (n : Nat) (r : Row)
    (rs : List Row) :
    batchLoop bs (n + 1) (r :: rs)
      = (r :: rs).take bs :: batchLoop bs n ((r :: rs).drop bs) := by
  obtain ⟨m, rfl⟩ := Nat.exists_eq_succ_of_ne_zero (Nat.pos_iff_ne_zero.mp hbs)
  simp [batchLoop]

/-- Both `while True` loops compute the same chunking: the pagination loop at
`offset` behaves like the batch loop on the rows past `offset`, because
`LIMIT ps OFFSET off` is `take ps` of `drop off` and successive offsets nest
as successive drops. -/
theorem lazyPaginationLoop_eq_batchLoop (dataset : List Row) (ps : Nat) :
    ∀ (fuel offset : Nat),
      lazyPaginationLoop dataset ps offset fuel
        = batchLoop ps fuel (dataset.drop offset) := by
  intro fuel
  induction fuel with
  | zero => intro offset; rfl
  | succ n ih =>
    intro offset
    simp only [lazyPaginationLoop, batchLoop, paginate_users]
    rw [ih (offset + ps), List.drop_drop]

/-- Concatenating the batches produced by the loop restores the input rows. -/
theorem batchLoop_flatten (bs : Nat) (hbs : 0 < bs) :
    ∀ (fuel : Nat) (rows : List Row), rows.length < fuel →
      (batchLoop bs fuel rows).flatten = rows := by
  intro fuel
  induction fuel with
  | zero => intro rows h; omega
  | succ n ih =>
    intro rows h
    cases rows with
    | nil => simp [batchLoop]
    | cons r rs =>
      simp only [List.length_cons] at h
      rw [batchLoop_step bs hbs n r rs, List.flatten_cons,
        ih ((r :: rs).drop bs) (by simp; omega), List.take_append_drop]

/-- The loop yields exactly `⌈rows.length / bs⌉` batches (as
`(rows.length + bs - 1) / bs` in natural division). -/
theorem batchLoop_length (bs : Nat) (hbs : 0 < bs) :
    ∀ (fuel : Nat) (rows : List Row), rows.length < fuel →
      (batchLoop bs fuel rows).length = (rows.length + bs - 1) / bs := by
  intro fuel
  induction fuel with
  | zero => intro rows h; omega
  | succ n ih =>
    intro rows h
    cases rows with
    | nil =>
      rw [batchLoop_nil]
      simp only [List.length_nil]
      rw [Nat.div_eq_of_lt (by omega)]
    | cons r rs =>
      simp only [List.length_cons] at h
      rw [batchLoop_step bs hbs n r rs, List.length_cons,
        ih ((r :: rs).drop bs) (by simp; omega)]
      simp only [List.length_drop, List.length_cons]
      rcases Nat.lt_or_ge bs (rs.length + 1) with hlt | hge
      · have h1 : rs.length + 1 - bs + bs - 1 = rs.length := by omega
        have h2 : rs.length + 1 + bs - 1 = rs.length + bs := by omega
        rw [h1, h2, Nat.add_div_right _ hbs]
      · have h1 : rs.length + 1 - bs + bs - 1 = bs - 1 := by omega
        rw [h1, Nat.div_eq_of_lt (by omega)]
        have h2 : (rs.length + 1 + bs - 1) / bs = 1 := by
          apply Nat.div_eq_of_lt_le <;> omega
        rw [h2]

/-- Every batch the loop yields is non-empty and holds at most `bs` rows. -/
theorem batchLoop_mem (bs : Nat) :
    ∀ (fuel : Nat) (rows : List Row) (b : List Row),
      b ∈ batchLoop bs fuel rows → b ≠ [] ∧ b.length ≤ bs := by
  intro fuel
  induction fuel with
  | zero => intro rows b hb; simp [batchLoop] at hb
  | succ n ih =>
    intro rows b hb
    rcases Nat.eq_zero_or_pos bs with rfl | hbs
    · simp [batchLoop] at hb
    · cases rows with
      | nil => rw [batchLoop_nil] at hb; simp at hb
      | cons r rs =>
        rw [batchLoop_step bs hbs n r rs, List.mem_cons] at hb
        rcases hb with rfl | hb
        · refine ⟨?_, List.length_take_le bs (r :: rs)⟩
          simp [List.take_eq_nil_iff]
          omega
        · exact ih ((r :: rs).drop bs) b hb

/-- Every batch except possibly the last is full: it holds exactly `bs`
rows. -/
theorem batchLoop_dropLast (bs : Nat) (hbs : 0 < bs) :
    ∀ (fuel : Nat) (rows : List Row), rows.length < fuel →
      ∀ b ∈ (batchLoop bs fuel rows).dropLast, b.length = bs := by
  intro fuel
  induction fuel with
  | zero => intro rows h; omega
  | succ n ih =>
    intro rows h
    cases rows with
    | nil => rw [batchLoop_nil]; simp
    | cons r rs =>
      simp only [List.length_cons] at h
      rw [batchLoop_step bs hbs n r rs]
      rcases Nat.lt_or_ge rs.length bs with hlt | hge
      · -- the whole input fits in this single batch; the recursive call is
        -- on the empty remainder and yields nothing
        have hdrop : (r :: rs).drop bs = [] := by
          rw [List.drop_eq_nil_iff]
          simp
          omega
        rw [hdrop]
        cases n with
        | zero => omega
        | succ m =>
          rw [batchLoop_nil]
          simp
      · -- the batch is full and more rows remain
        intro b hb
        have hne : batchLoop bs n ((r :: rs).drop bs) ≠ [] := by
          cases n with
          | zero => omega
          | succ m =>
            cases hd : (r :: rs).drop bs with
            | nil =>
              rw [List.drop_eq_nil_iff] at hd
              simp at hd
              omega
            | cons x xs =>
              rw [batchLoop_step bs hbs m x xs]
              exact List.cons_ne_nil _ _
        rw [List.dropLast_cons_of_ne_nil hne, List.mem_cons] at hb
        rcases hb with rfl | hb
        · rw [List.length_take]
          simp
          omega
        · exact ih ((r :: rs).drop bs) (by simp; omega) b hb

/-! ## Concrete sample data (the spec's example dataset shape) -/

/-- Sample row with age 30. -/
def rowAlice : Row :=
  { user_id := "u1", name := "Alice", email := "alice@example.com", age := 30 }

/-- Sample row with age 20. -/
def rowBob : Row :=
  { user_id := "u2", name := "Bob", email := "bob@example.com", age := 20 }

/-- Sample row with age 40. -/
def rowCara : Row :=
  { user_id := "u3", name := "Cara", email := "cara@example.com", age := 40 }

/-- A three-row dataset with ages `[30, 20, 40]` in cursor order. -/
def sampleDataset : List Row := [rowAlice, rowBob, rowCara]

/-! ## Claim theorems -/

/-- C3: for every `page_size > 0` and dataset of size `N`, `lazy_pagination`
yields exactly `⌈N / page_size⌉` pages (here `(N + ps - 1) / ps` in natural
division) and terminates; every yielded page is non-empty (the empty
terminating fetch is never yielded) and holds at most `page_size` rows. -/
theorem lazy_pagination_yields_ceil_pages (dataset : List Row) (ps : Nat)
    (hps : 0 < ps) :
    (lazy_pagination dataset ps).length = (dataset.length + ps - 1) / ps
      ∧ ∀ p ∈ lazy_pagination dataset ps, p ≠ [] ∧ p.length ≤ ps := by
  have hbridge : lazy_pagination dataset ps
      = batchLoop ps (dataset.length + 1) dataset := by
    rw [lazy_pagination, lazyPaginationLoop_eq_batchLoop, List.drop_zero]
  rw [hbridge]
  exact ⟨batchLoop_length ps hps _ _ (Nat.lt_succ_self _),
    fun p hp => batchLoop_mem ps _ _ p hp⟩

/-- Witness for C3 at `page_size = 2` on the three-row sample dataset. -/
theorem lazy_pagination_yields_ceil_pages_witness :
    (0 < 2)
      ∧ ((lazy_pagination sampleDataset 2).length
            = (sampleDataset.length + 2 - 1) / 2
          ∧ ∀ p ∈ lazy_pagination sampleDataset 2, p ≠ [] ∧ p.length ≤ 2) :=
  ⟨by decide, lazy_pagination_yields_ceil_pages sampleDataset 2 (by decide)⟩

/-- C4: for every `batch_size > 0` and fixed dataset, concatenating the
batches of `stream_users_in_batches` restores exactly the dataset's rows in
order; every batch is non-empty with at most `batch_size` rows, and every
batch except possibly the last holds exactly `batch_size` rows. -/
theorem stream_users_in_batches_partition (dataset : List Row) (bs : Nat)
    (hbs : 0 < bs) :
    (stream_users_in_batches dataset bs).flatten = dataset
      ∧ (∀ b ∈ stream_users_in_batches dataset bs, b ≠ [] ∧ b.length ≤ bs)
      ∧ ∀ b ∈ (stream_users_in_batches dataset bs).dropLast, b.length = bs := by
  simp only [stream_users_in_batches]
  exact ⟨batchLoop_flatten bs hbs _ _ (Nat.lt_succ_self _),
    fun b hb => batchLoop_mem bs _ _ b hb,
    fun b hb => batchLoop_dropLast bs hbs _ _ (Nat.lt_succ_self _) b hb⟩

/-- Witness for C4 at `batch_size = 2` on the three-row sample dataset. -/
theorem stream_users_in_batches_partition_witness :
    (0 < 2)
      ∧ ((stream_users_in_batches sampleDataset 2).flatten = sampleDataset
          ∧ (∀ b ∈ stream_users_in_batches sampleDataset 2,
              b ≠ [] ∧ b.length ≤ 2)
          ∧ ∀ b ∈ (stream_users_in_batches sampleDataset 2).dropLast,
              b.length = 2) :=
  ⟨by decide, stream_users_in_batches_partition sampleDataset 2 (by decide)⟩

/-- C8 counterexample: invoking the generators with size `0` raises no
`ValidationError` at all — there is no input validation in either function;
both silently terminate with an empty sequence, exactly what the claim says
never happens. -/
theorem size_zero_silently_empty_counterexample :
    stream_users_in_batches sampleDataset 0 = []
      ∧ lazy_pagination sampleDataset 0 = [] := by
  constructor <;> rfl

/-- C8 amended: for size `0`, `stream_users_in_batches` and `lazy_pagination`
surface no error of any kind; each immediately yields the empty sequence (the
first pull — `islice(cursor, 0)` resp. `LIMIT 0` — is empty, so the loop
breaks before yielding anything). -/
theorem size_zero_yields_empty_sequence (dataset : List Row) :
    stream_users_in_batches dataset 0 = []
      ∧ lazy_pagination dataset 0 = [] := by
  constructor
  · simp [stream_users_in_batches, batchLoop]
  · simp [lazy_pagination, lazyPaginationLoop, paginate_users]

/-- After `k ≤ dataset.length` pulls, `stream_users` is suspended at its
`yield` with the connection and cursor still open and the rows past `k` still
pending — exactly the state of a fresh generator over the remaining rows. -/
theorem streamUsersRun_midway :
    ∀ (k : Nat) (dataset : List Row), k ≤ dataset.length →
      streamUsersRun k (streamUsersStart dataset)
        = streamUsersStart (dataset.drop k) := by
  intro k
  induction k with
  | zero => intro dataset _; rfl
  | succ m ih =>
    intro dataset hk
    cases dataset with
    | nil => simp at hk
    | cons r rs =>
      have hstep : (streamUsersNext (streamUsersStart (r :: rs))).2
          = streamUsersStart rs := by
        simp [streamUsersNext, streamUsersStart]
      simp only [streamUsersRun, hstep]
      simp only [List.length_cons] at hk
      rw [ih rs (by omega)]
      rfl

/-- Driving `stream_users` past its last row reaches the two trailing close
statements: the connection and cursor are released. -/
theorem streamUsersRun_exhaust :
    ∀ dataset : List Row,
      (streamUsersRun (dataset.length + 1) (streamUsersStart dataset)).connOpen
          = false
        ∧ (streamUsersRun (dataset.length + 1)
            (streamUsersStart dataset)).cursorOpen = false := by
  intro dataset
  induction dataset with
  | nil => constructor <;> rfl
  | cons r rs ih =>
    have hstep : (streamUsersNext (streamUsersStart (r :: rs))).2
        = streamUsersStart rs := by
      simp [streamUsersNext, streamUsersStart]
    simp only [List.length_cons, streamUsersRun, hstep]
    exact ih

/-- C2 counterexample: a consumer pulls one row of the two-plus-row sample
dataset from `stream_users` and then abandons the generator; the connection
and cursor are still open afterwards (the close statements sit after the
loop, with no `try`/`finally` to run them on `GeneratorExit`).  The same
holds for `stream_users_in_batches` abandoned after its first batch. -/
theorem abandoned_generator_leaves_connection_open_counterexample :
    (streamUsersAbandon
        (streamUsersNext (streamUsersStart sampleDataset)).2).connOpen = true
      ∧ (streamUsersAbandon
          (streamUsersNext (streamUsersStart sampleDataset)).2).cursorOpen
          = true
      ∧ (streamUsersAbandon
          (streamUsersNext (streamUsersStart sampleDataset)).2).frameDone
          = true
      ∧ (batchGenAbandon
          (batchGenNext 1 (batchGenStart sampleDataset)).2).connOpen = true :=
  ⟨rfl, rfl, rfl, rfl⟩

/-- C2 amended: the generators release their connection and cursor only when
driven to exhaustion; a consumer that stops pulling early leaves them open —
the generator body has no `try`/`finally`, so abandonment at any point up to
the last row skips the trailing close statements (for
`stream_users_in_batches` likewise: abandoning after a yielded batch leaves
the connection open). -/
theorem generator_cleanup_only_on_exhaustion (dataset : List Row) (k bs : Nat)
    (hk : k ≤ dataset.length) (hbs : 0 < bs) (hne : dataset ≠ []) :
    (streamUsersAbandon
        (streamUsersRun k (streamUsersStart dataset))).connOpen = true
      ∧ (streamUsersAbandon
          (streamUsersRun k (streamUsersStart dataset))).cursorOpen = true
      ∧ (streamUsersRun (dataset.length + 1)
          (streamUsersStart dataset)).connOpen = false
      ∧ (batchGenAbandon
          (batchGenNext bs (batchGenStart dataset)).2).connOpen = true := by
  refine ⟨?_, ?_, (streamUsersRun_exhaust dataset).1, ?_⟩
  · rw [streamUsersRun_midway k dataset hk]; rfl
  · rw [streamUsersRun_midway k dataset hk]; rfl
  · cases dataset with
    | nil => exact absurd rfl hne
    | cons r rs =>
      obtain ⟨m, rfl⟩ :=
        Nat.exists_eq_succ_of_ne_zero (Nat.pos_iff_ne_zero.mp hbs)
      simp [batchGenNext, batchGenStart, batchGenAbandon]

/-- Witness for the amended C2: one row pulled out of three, then abandoned. -/
theorem generator_cleanup_only_on_exhaustion_witness :
    ((1 ≤ sampleDataset.length ∧ 0 < 2 ∧ sampleDataset ≠ [])
      ∧ ((streamUsersAbandon
            (streamUsersRun 1 (streamUsersStart sampleDataset))).connOpen = true
          ∧ (streamUsersAbandon
              (streamUsersRun 1 (streamUsersStart sampleDataset))).cursorOpen
              = true
          ∧ (streamUsersRun (sampleDataset.length + 1)
              (streamUsersStart sampleDataset)).connOpen = false
          ∧ (batchGenAbandon
              (batchGenNext 2 (batchGenStart sampleDataset)).2).connOpen
              = true)) :=
  ⟨⟨by decide, by decide, by decide⟩,
    generator_cleanup_only_on_exhaustion sampleDataset 1 2 (by decide)
      (by decide) (by decide)⟩

/-- C9: `compute_average_age` folds the age stream once into the running pair
`(total, count)`; the empty dataset hits the explicit `count == 0` guard and
returns the sentinel `0` (no division is attempted), and the ages
`[30, 20, 40]` average to `30`. -/
theorem compute_average_age_sentinel_and_example :
    compute_average_age [] = 0 ∧ compute_average_age sampleDataset = 30 := by
  constructor
  · rfl
  · norm_num [compute_average_age, stream_user_ages, sampleDataset, rowAlice,
      rowBob, rowCara]

/-- An operation that fails with `sqlite3.OperationalError` on every attempt. -/
def alwaysLockedOp : Nat → Except PyError Nat :=
  fun _ => .error (.operationalError "database is locked")

/-- An operation that fails with `sqlite3.OperationalError` on attempts 1 and
2 (0-based indices 0 and 1) and succeeds on attempt 3. -/
def failTwiceOp : Nat → Except PyError Nat :=
  fun i => if i < 2 then .error (.operationalError "database is locked")
           else .ok 42

/-- C1 counterexample: with `retries = 3` and an operation that fails with a
retryable `OperationalError` on every attempt, the wrapper invokes the
operation exactly 3 times and then executes `raise last_exception` — the
surfaced error is the last `OperationalError` itself, not an
`ExhaustedRetriesError` wrapper (no such class exists in the code). -/
theorem retry_raises_last_error_not_wrapper_counterexample :
    retry_db_operation 3 alwaysLockedOp
        = (.error (.operationalError "database is locked"), 3)
      ∧ raisesExhaustedRetries (retry_db_operation 3 alwaysLockedOp).1
          = false :=
  ⟨rfl, rfl⟩

/-- C1 amended: with `retries = 3`, an operation failing retryably on
attempts 1–2 and succeeding on attempt 3 is invoked exactly 3 times and its
success value is returned; an operation failing retryably on every attempt is
invoked exactly 3 times, after which the wrapper re-raises the last failure
itself (never an `ExhaustedRetriesError`). -/
theorem retry_db_operation_three_attempts {α : Type}
    (op : Nat → Except PyError α) (m0 m1 : String)
    (h0 : op 0 = .error (.operationalError m0))
    (h1 : op 1 = .error (.operationalError m1)) :
    (∀ v, op 2 = .ok v → retry_db_operation 3 op = (.ok v, 3))
      ∧ ∀ m2, op 2 = .error (.operationalError m2) →
          retry_db_operation 3 op = (.error (.operationalError m2), 3)
            ∧ raisesExhaustedRetries (retry_db_operation 3 op).1 = false := by
  constructor
  · intro v h2
    simp [retry_db_operation, retryLoop, h0, h1, h2, PyError.isOperational]
  · intro m2 h2
    refine ⟨?_, ?_⟩ <;>
      simp [retry_db_operation, retryLoop, h0, h1, h2, PyError.isOperational,
        raisesExhaustedRetries]

/-- Witness for the amended C1: the success-on-third-attempt operation and the
always-failing operation, both at `retries = 3`. -/
theorem retry_db_operation_three_attempts_witness :
    retry_db_operation 3 failTwiceOp = (.ok 42, 3)
      ∧ retry_db_operation 3 alwaysLockedOp
          = (.error (.operationalError "database is locked"), 3) :=
  ⟨(retry_db_operation_three_attempts failTwiceOp "database is locked"
        "database is locked" rfl rfl).1 42 rfl,
    ((retry_db_operation_three_attempts alwaysLockedOp "database is locked"
        "database is locked" rfl rfl).2 "database is locked" rfl).1⟩

/-- C5: for any wrapped operation and any request (keyword `query` plus
positional arguments), the first call from an empty cache invokes the
underlying operation, stores its result and returns it; a second call with
the same request is answered from the cache without invoking the underlying
operation, and its result equals the first call's — two identical calls
invoke the underlying operation exactly once. -/
theorem cache_query_invokes_once {ρ : Type} (kq : Option String)
    (args : List String) (f1 f2 : ρ) :
    (cache_query_call [] kq args f1).2.2 = true
      ∧ (cache_query_call [] kq args f1).1 = f1
      ∧ (cache_query_call (cache_query_call [] kq args f1).2.1
          kq args f2).2.2 = false
      ∧ (cache_query_call (cache_query_call [] kq args f1).2.1
          kq args f2).1 = (cache_query_call [] kq args f1).1 := by
  simp [cache_query_call, List.lookup]

/-- C10 counterexample: the Python key derivation is
`kwargs.get("query") or (args[0] if args else None)`, and `or` falls through
on every falsy value, not only on absence — with the empty-string query text
passed as the keyword on both calls but different first positional arguments
(two different connections), the two calls use different cache keys, so the
second call re-invokes the underlying operation and returns its fresh result
instead of the stored one. -/
theorem cache_key_falsy_fallback_counterexample :
    (cache_query_call (cache_query_call [] (some "") ["connA"] (1 : Nat)).2.1
        (some "") ["connB"] 2).2.2 = true
      ∧ (cache_query_call (cache_query_call [] (some "") ["connA"] (1 : Nat)).2.1
          (some "") ["connB"] 2).1 = 2 := by
  constructor <;> rfl

/-- C10 amended: the cache key is the `query` keyword argument when that
argument is truthy (a non-empty string); only when it is absent, `None`, or
falsy (the empty string) does the derivation fall back to the first
positional argument (or `None` with no positionals).  For two calls whose
`query` keyword is the same non-empty string, the second call returns the
first call's stored result without invoking the underlying operation, however
all other arguments (connection, bound parameters) differ — those never
participate in the key. -/
theorem cache_key_is_query_text_only {ρ : Type} (q : String) (hq : q ≠ "")
    (args1 args2 : List String) (f1 f2 : ρ) :
    cacheKey (some q) args1 = some q
      ∧ (cache_query_call (cache_query_call [] (some q) args1 f1).2.1
          (some q) args2 f2).2.2 = false
      ∧ (cache_query_call (cache_query_call [] (some q) args1 f1).2.1
          (some q) args2 f2).1 = (cache_query_call [] (some q) args1 f1).1 := by
  simp [cache_query_call, cacheKey, hq, List.lookup]

/-- Witness for the amended C10: the same non-empty query text on two calls
with different positional arguments and different would-be results. -/
theorem cache_key_is_query_text_only_witness :
    ("SELECT * FROM users" ≠ "")
      ∧ (cacheKey (some "SELECT * FROM users") ["connA"]
            = some "SELECT * FROM users"
          ∧ (cache_query_call
              (cache_query_call [] (some "SELECT * FROM users") ["connA"]
                (1 : Nat)).2.1
              (some "SELECT * FROM users") ["connB"] 2).2.2 = false
          ∧ (cache_query_call
              (cache_query_call [] (some "SELECT * FROM users") ["connA"]
                (1 : Nat)).2.1
              (some "SELECT * FROM users") ["connB"] 2).1
            = (cache_query_call [] (some "SELECT * FROM users") ["connA"]
                (1 : Nat)).1) :=
  ⟨by decide, cache_key_is_query_text_only "SELECT * FROM users" (by decide)
    ["connA"] ["connB"] 1 2⟩

/-- Store behaviour in which every primitive succeeds and the wrapped
operation returns `7`. -/
def txAllOk : TxBehavior Nat :=
  { beginResult := .ok (), opResult := .ok 7, commitResult := .ok (),
    rollbackResult := .ok () }

/-- Store behaviour in which the wrapped operation raises and the rollback
succeeds. -/
def txOpFails : TxBehavior Nat :=
  { beginResult := .ok (), opResult := .error (.operationalError "op failed"),
    commitResult := .ok (), rollbackResult := .ok () }

/-- Store behaviour in which the wrapped operation raises and the rollback
itself raises too. -/
def txRollbackAlsoFails : TxBehavior Nat :=
  { beginResult := .ok (), opResult := .error (.operationalError "op failed"),
    commitResult := .ok (),
    rollbackResult := .error (.dbError "rollback failed") }

/-- C6: when the wrapped operation succeeds (and the store's commit goes
through) the transaction is committed and the operation's result returned;
when the wrapped operation raises (and the store's rollback goes through) the
transaction is rolled back, nothing is committed, and the original error is
re-raised, never swallowed; and the `finally` block closes the connection on
every path whatsoever — success, rollback, or an error during begin, commit
or rollback itself. -/
theorem transactional_commit_rollback_release {α : Type} (b : TxBehavior α) :
    (∀ v, b.beginResult = .ok () → b.opResult = .ok v →
        b.commitResult = .ok () →
        (transactional b).surfaced = .ok v
          ∧ (transactional b).committed = true)
      ∧ (∀ e, b.beginResult = .ok () → b.opResult = .error e →
          b.rollbackResult = .ok () →
          (transactional b).surfaced = .error e
            ∧ (transactional b).committed = false
            ∧ (transactional b).rollbackAttempted = true)
      ∧ (transactional b).connClosed = true := by
  refine ⟨?_, ?_, ?_⟩
  · intro v hbg hop hcm
    simp [transactional, hbg, hop, hcm]
  · intro e hbg hop hrb
    simp [transactional, txExceptBlock, hbg, hop, hrb]
  · rcases b with ⟨bg, op, cm, rb⟩
    cases bg <;> cases op <;> cases cm <;> cases rb <;>
      simp [transactional, txExceptBlock]

/-- Witness for C6: the all-success behaviour and the
operation-fails/rollback-succeeds behaviour. -/
theorem transactional_commit_rollback_release_witness :
    ((transactional txAllOk).surfaced = .ok 7
        ∧ (transactional txAllOk).committed = true)
      ∧ ((transactional txOpFails).surfaced
            = .error (.operationalError "op failed")
          ∧ (transactional txOpFails).committed = false
          ∧ (transactional txOpFails).rollbackAttempted = true)
      ∧ (transactional txRollbackAlsoFails).connClosed = true :=
  ⟨(transactional_commit_rollback_release txAllOk).1 7 rfl rfl rfl,
    (transactional_commit_rollback_release txOpFails).2.1
      (.operationalError "op failed") rfl rfl rfl,
    (transactional_commit_rollback_release txRollbackAlsoFails).2.2⟩

/-- C7 counterexample: the wrapped operation raises `op failed` and the
subsequent rollback raises `rollback failed`; the connection is still closed,
but the error surfaced to the caller is the rollback failure — the `raise`
re-raising the original error is never reached, so the rollback failure masks
it (the original survives only as implicit exception context). -/
theorem tx_rollback_failure_masks_original_counterexample :
    (transactional txRollbackAlsoFails).surfaced
        = .error (.dbError "rollback failed")
      ∧ (transactional txRollbackAlsoFails).surfaced
          ≠ .error (.operationalError "op failed")
      ∧ (transactional txRollbackAlsoFails).connClosed = true := by
  refine ⟨rfl, ?_, rfl⟩
  intro h
  exact PyError.noConfusion (Except.error.inj h)

/-- C7 amended: if the wrapped operation raises and the subsequent rollback
itself raises, the `finally` block still releases the connection, but the
exception surfaced to the caller is the rollback failure, not the original
operation error (which is displaced into exception context). -/
theorem tx_rollback_failure_still_releases {α : Type} (b : TxBehavior α)
    (e re : PyError) (hbg : b.beginResult = .ok ())
    (hop : b.opResult = .error e) (hrb : b.rollbackResult = .error re) :
    (transactional b).connClosed = true
      ∧ (transactional b).rollbackAttempted = true
      ∧ (transactional b).surfaced = .error re := by
  simp [transactional, txExceptBlock, hbg, hop, hrb]

/-- Witness for the amended C7 at the concrete rollback-fails behaviour. -/
theorem tx_rollback_failure_still_releases_witness :
    (transactional txRollbackAlsoFails).connClosed = true
      ∧ (transactional txRollbackAlsoFails).rollbackAttempted = true
      ∧ (transactional txRollbackAlsoFails).surfaced
          = .error (.dbError "rollback failed") :=
  tx_rollback_failure_still_releases txRollbackAlsoFails
    (.operationalError "op failed") (.dbError "rollback failed") rfl rfl rfl

end AlxBackend
